import Mathlib

/-!
Shallow embedding of the message-dispatch orchestration layer of
common-hosted-email-service, translated from
`src/app/src/services/queueSvc.js` (class `QueueService` and its three
typed error classes).  External collaborators (the Bull job queue, the
DataService-backed data store and the nodemailer-backed mail transport)
are modelled as explicit state plus a failure-injection environment, so
that ordering, error-absorption and fire-and-forget behaviour of the
orchestrator become provable statements.
-/

namespace Ches

/-- Message status values (the `queueState` constants imported by
queueSvc.js from `components/state`; that file is not among the provided
sources, so the names follow the spec's Status enum). -/
inductive Status
  | enqueued
  | processing
  | completed
  | failed
  | removed
  deriving DecidableEq, Repr

/-- Result of a successful delivery as persisted by the orchestrator:
`sendResult = { smtpMsgId, response }` built in `sendMessage`. -/
structure SendResult where
  smtpMsgId : String
  response : String
  deriving DecidableEq, Repr

/-- Value returned by the mail transport (`emailService.send`): a provider
message id and a response string. -/
structure SmtpResult where
  messageId : String
  response : String
  deriving DecidableEq, Repr

/-- One persisted message record of the data store, keyed by
(client, messageId). -/
structure MsgRecord where
  client : String
  messageId : String
  status : Option Status
  statusDescription : Option String
  email : Option String
  sendResult : Option SendResult
  deriving DecidableEq, Repr

/-- The data store (DataService persistence), a list of message records. -/
structure DataStore where
  recs : List MsgRecord
  deriving DecidableEq, Repr

/-- Queue-native job states (Bull). -/
inductive JobState
  | delayed
  | active
  | waiting
  | completed
  | failed
  deriving DecidableEq, Repr

/-- Payload of a queue job as built by `enqueue`: `{ client, messageId }`.
Fields are optional strings so that JavaScript truthiness checks
(`job.data.client && job.data.messageId`) can be modelled faithfully:
an absent field or the empty string is falsy. -/
structure JobData where
  client : Option String
  messageId : Option String
  deriving DecidableEq, Repr

/-- A queue job: its id, its (possibly scrubbed) payload and its
queue-native state. -/
structure Job where
  id : String
  data : Option JobData
  state : JobState
  deriving DecidableEq, Repr

/-- The job queue (Bull), a list of jobs. -/
structure Queue where
  jobs : List Job
  deriving DecidableEq, Repr

/-- Observable effects in program order: data-store reads and writes,
queue operations, job-payload updates and log lines. -/
inductive Event
  | dsUpdateStatus (client messageId : String) (status : Status) (desc : Option String)
  | dsReadMessage (client messageId : String)
  | dsUpdateSendResult (client messageId : String) (r : SendResult)
  | dsDeleteEmail (client messageId : String)
  | queueAdd (jobId : String) (d : JobData)
  | queueRemove (jobId : String)
  | jobUpdate (jobId : String) (payload : Option JobData)
  | logInfo (tag msg : String)
  | logError (tag msg : String)
  deriving DecidableEq, Repr

/-- Asynchronous work started without being awaited (the fire-and-forget
calls of `removeJob`): recorded as initiated, not yet applied. -/
inductive PendingTask
  | updStatus (client messageId : String) (status : Status)
  | updContent (job : Job)
  deriving DecidableEq, Repr

/-- Whole-system state threaded through each orchestrator operation. -/
structure World where
  queue : Queue
  store : DataStore
  events : List Event
  pending : List PendingTask
  deriving DecidableEq, Repr

/-- JavaScript truthiness of an optional string field: `undefined` / `null`
and the empty string are falsy, every other string is truthy. -/
def truthy : Option String → Bool
  | none => false
  | some s => !(s == "")

/-- Modelled from the spec: `DataService.updateStatus` (dataSvc.js is not
among the provided sources) persists the given status and description on
the record keyed by (client, messageId). -/
def DataStore.updateStatus (ds : DataStore) (client messageId : String)
    (status : Status) (desc : Option String) : DataStore :=
  ⟨ds.recs.map fun r =>
    if r.client == client && r.messageId == messageId then
      { r with status := some status, statusDescription := desc }
    else r⟩

/-- Modelled from the spec: `DataService.readMessage` (dataSvc.js is not
among the provided sources) reads the full message record keyed by
(client, messageId), `none` when absent. -/
def DataStore.readMessage (ds : DataStore) (client messageId : String) :
    Option MsgRecord :=
  ds.recs.find? fun r => r.client == client && r.messageId == messageId

/-- Modelled from the spec: `DataService.updateMessageSendResult`
(dataSvc.js is not among the provided sources) persists the send result
and marks the message COMPLETED, per spec sections 4.1 and 8. -/
def DataStore.updateMessageSendResult (ds : DataStore) (client messageId : String)
    (r : SendResult) : DataStore :=
  ⟨ds.recs.map fun rec =>
    if rec.client == client && rec.messageId == messageId then
      { rec with status := some Status.completed, sendResult := some r }
    else rec⟩

/-- Modelled from the spec: `DataService.deleteMessageEmail` (dataSvc.js is
not among the provided sources) deletes the stored email body of the
record keyed by (client, messageId). -/
def DataStore.deleteMessageEmail (ds : DataStore) (client messageId : String) :
    DataStore :=
  ⟨ds.recs.map fun r =>
    if r.client == client && r.messageId == messageId then
      { r with email := none }
    else r⟩

/-- Modelled from the spec: the queue collaborator's lookup by job id
(Bull `getJob`). -/
def Queue.getJob (q : Queue) (id : String) : Option Job :=
  q.jobs.find? fun j => j.id == id

/-- Modelled from the spec: removal of a job from the queue
(Bull `job.remove()`). -/
def Queue.removeById (q : Queue) (id : String) : Queue :=
  ⟨q.jobs.filter fun j => !(j.id == id)⟩

/-- Recognized Bull options passed to `queue.add`: an explicit job id and
an optional delay; other keys are opaque to the orchestrator. -/
structure Opts where
  jobId : Option String
  delay : Option Nat
  deriving DecidableEq, Repr

/-- Modelled from the spec: the queue collaborator's `add(payload, opts)`,
creating a job whose id is `opts.jobId` and whose initial state is
delayed when a delay is configured. -/
def Queue.add (q : Queue) (d : JobData) (opts : Opts) : Queue × Job :=
  let job : Job :=
    { id := opts.jobId.getD ""
      data := some d
      state := if opts.delay.isSome then JobState.delayed else JobState.waiting }
  (⟨q.jobs ++ [job]⟩, job)

/-- Failure-injection environment for the external collaborators: each
flag makes the corresponding data-store / queue / job call reject, and
`sendEmail` is the mail transport's outcome for a given envelope. -/
structure Env where
  updateStatusFails : Bool
  queueAddFails : Bool
  readMessageFails : Bool
  sendEmail : Option String → Except String SmtpResult
  updateSendResultFails : Bool
  deleteEmailFails : Bool
  jobUpdateFails : Bool

/-- The typed errors thrown by `QueueService.removeJob` (classes
`DataIntegrityError`, `ClientMismatchError`, `UncancellableError`
in queueSvc.js). -/
inductive RemoveError
  | dataIntegrity
  | clientMismatch
  | uncancellable
  deriving DecidableEq, Repr

namespace QueueService

/-- Translation of `QueueService.enqueue(client, message, opts)`:
awaits `dataService.updateStatus(client, message.messageId, ENQUEUED)`
(a rejection there propagates), then `queue.add` with the payload
`{ client, messageId }` and `Object.assign(opts, { jobId: message.messageId })`
(so any caller-supplied jobId is overwritten); an `add` rejection is
caught by the attached `.catch` and only logged. -/
def enqueue (env : Env) (w : World) (client : String) (message : MsgRecord)
    (opts : Opts) : Except String World :=
  if env.updateStatusFails then
    Except.error "updateStatus rejected"
  else
    let w1 : World :=
      { w with
        store := DataStore.updateStatus w.store client message.messageId Status.enqueued none
        events := w.events ++
          [Event.dsUpdateStatus client message.messageId Status.enqueued none] }
    let opts1 : Opts := { opts with jobId := some message.messageId }
    let d : JobData := { client := some client, messageId := some message.messageId }
    if env.queueAddFails then
      Except.ok { w1 with events := w1.events ++ [Event.logError "enqueue" "queue add rejected"] }
    else
      let res := Queue.add w1.queue d opts1
      Except.ok
        { w1 with
          queue := res.1
          events := w1.events ++
            [Event.queueAdd res.2.id d, Event.logInfo "enqueue" "job enqueued"] }

/-- Translation of `QueueService.updateContent(job)`: inside a try / catch,
when the job has a data object, the stored email is deleted when both
`data.messageId` and `data.client` are truthy, and then `job.update(null)`
scrubs the job payload; any rejection is caught and logged. -/
def updateContent (env : Env) (w : World) (job : Job) : World × Job :=
  match job.data with
  | none => (w, job)
  | some d =>
    if truthy d.messageId && truthy d.client then
      if env.deleteEmailFails then
        ({ w with events := w.events ++ [Event.logError "updateContent" "deleteMessageEmail rejected"] }, job)
      else
        let w1 : World :=
          { w with
            store := DataStore.deleteMessageEmail w.store (d.client.getD "") (d.messageId.getD "")
            events := w.events ++ [Event.dsDeleteEmail (d.client.getD "") (d.messageId.getD "")] }
        if env.jobUpdateFails then
          ({ w1 with events := w1.events ++ [Event.logError "updateContent" "job update rejected"] }, job)
        else
          ({ w1 with events := w1.events ++ [Event.jobUpdate job.id none] },
           { job with data := none })
    else
      if env.jobUpdateFails then
        ({ w with events := w.events ++ [Event.logError "updateContent" "job update rejected"] }, job)
      else
        ({ w with events := w.events ++ [Event.jobUpdate job.id none] },
         { job with data := none })

/-- Translation of `QueueService.updateStatus(job, status, description)`:
writes the status for the job's (client, messageId) when both identifiers
are truthy, otherwise a no-op; a data-store rejection propagates. -/
def updateStatus (env : Env) (w : World) (job : Job) (status : Status)
    (desc : Option String) : Except String World :=
  match job.data with
  | none => Except.ok w
  | some d =>
    if truthy d.messageId && truthy d.client then
      if env.updateStatusFails then
        Except.error "updateStatus rejected"
      else
        Except.ok
          { w with
            store := DataStore.updateStatus w.store (d.client.getD "") (d.messageId.getD "") status desc
            events := w.events ++
              [Event.dsUpdateStatus (d.client.getD "") (d.messageId.getD "") status desc] }
    else Except.ok w

/-- Translation of `QueueService.sendMessage(job)`: when both identifiers
are truthy, inside a try / catch it reads the message, calls the mail
transport with its email, builds `sendResult = { smtpMsgId, response }`
from the transport's `messageId` and `response`, and persists it; any
error of the three calls is caught and logged, never rethrown. -/
def sendMessage (env : Env) (w : World) (job : Job) : World :=
  match job.data with
  | none => w
  | some d =>
    if truthy d.messageId && truthy d.client then
      let client := d.client.getD ""
      let messageId := d.messageId.getD ""
      if env.readMessageFails then
        { w with events := w.events ++ [Event.logError "sendMessage" "readMessage rejected"] }
      else
        match DataStore.readMessage w.store client messageId with
        | none =>
          { w with events := w.events ++
              [Event.dsReadMessage client messageId,
               Event.logError "sendMessage" "message not found"] }
        | some msg =>
          let w1 : World :=
            { w with events := w.events ++ [Event.dsReadMessage client messageId] }
          match env.sendEmail msg.email with
          | Except.error e =>
            { w1 with events := w1.events ++ [Event.logError "sendMessage" e] }
          | Except.ok smtp =>
            let sr : SendResult := { smtpMsgId := smtp.messageId, response := smtp.response }
            if env.updateSendResultFails then
              { w1 with events := w1.events ++ [Event.logError "sendMessage" "updateMessageSendResult rejected"] }
            else
              { w1 with
                store := DataStore.updateMessageSendResult w1.store client messageId sr
                events := w1.events ++ [Event.dsUpdateSendResult client messageId sr] }
    else w

/-- Translation of `QueueService.removeJob(client, jobId)`: looks the job
up; with a well-formed job it checks data integrity, then ownership, then
the delayed state, throwing the matching typed error; on success it awaits
`job.remove()`, starts the REMOVED status write and the content scrub
without awaiting them (recorded as pending tasks), and returns true;
a missing or malformed job yields false. -/
def removeJob (w : World) (client jobId : String) :
    Except RemoveError Bool × World :=
  match Queue.getJob w.queue jobId with
  | none => (Except.ok false, w)
  | some job =>
    match job.data with
    | none => (Except.ok false, w)
    | some d =>
      if truthy d.client && truthy d.messageId then
        if d.messageId ≠ some jobId then
          (Except.error RemoveError.dataIntegrity, w)
        else if d.client ≠ some client then
          (Except.error RemoveError.clientMismatch, w)
        else if job.state ≠ JobState.delayed then
          (Except.error RemoveError.uncancellable, w)
        else
          (Except.ok true,
            { w with
              queue := Queue.removeById w.queue jobId
              events := w.events ++
                [Event.queueRemove jobId, Event.logInfo "removeJob" "message removed from queue"]
              pending := w.pending ++
                [PendingTask.updStatus client (d.messageId.getD "") Status.removed,
                 PendingTask.updContent job] })
      else (Except.ok false, w)

end QueueService

/-! Concrete fixtures used by the witness theorems. -/

/-- A persisted message for client acme with body hello. -/
def recAcme : MsgRecord :=
  { client := "acme", messageId := "m1", status := some Status.enqueued
    statusDescription := none, email := some "hello", sendResult := none }

/-- A well-formed delayed job for recAcme. -/
def jobGood : Job :=
  { id := "m1", data := some { client := some "acme", messageId := some "m1" }
    state := JobState.delayed }

/-- A corrupted job: its id and its recorded messageId disagree. -/
def jobCorrupt : Job :=
  { id := "m1", data := some { client := some "acme", messageId := some "m2" }
    state := JobState.delayed }

/-- A malformed job with no data payload. -/
def jobNoData : Job :=
  { id := "m1", data := none, state := JobState.delayed }

/-- World with the well-formed delayed job and its message record. -/
def wGood : World := { queue := ⟨[jobGood]⟩, store := ⟨[recAcme]⟩, events := [], pending := [] }

/-- World holding the corrupted job. -/
def wCorrupt : World := { queue := ⟨[jobCorrupt]⟩, store := ⟨[recAcme]⟩, events := [], pending := [] }

/-- World holding the job without data. -/
def wNoData : World := { queue := ⟨[jobNoData]⟩, store := ⟨[recAcme]⟩, events := [], pending := [] }

/-- World with an empty queue. -/
def wEmpty : World := { queue := ⟨[]⟩, store := ⟨[recAcme]⟩, events := [], pending := [] }

/-- Environment in which every collaborator call succeeds and the mail
transport answers with id abc and response 250 OK. -/
def envOk : Env :=
  { updateStatusFails := false, queueAddFails := false, readMessageFails := false
    sendEmail := fun _ => Except.ok { messageId := "abc", response := "250 OK" }
    updateSendResultFails := false, deleteEmailFails := false, jobUpdateFails := false }

/-- Environment in which only the queue add call rejects. -/
def envAddFail : Env := { envOk with queueAddFails := true }

/-- Environment in which only the mail transport rejects. -/
def envSendFail : Env := { envOk with sendEmail := fun _ => Except.error "smtp down" }

/-- Environment in which only the email deletion rejects. -/
def envDelFail : Env := { envOk with deleteEmailFails := true }

/-! Helper lemmas about keyed updates of the data store. -/

/-- A keyed record update commutes with lookup: mapping a key-preserving
modification over the records and then finding by key equals finding by
key and then modifying the hit. -/
theorem find?_keyed_map (l : List MsgRecord) (c m : String) (f : MsgRecord → MsgRecord)
    (hc : ∀ r, (f r).client = r.client) (hm : ∀ r, (f r).messageId = r.messageId) :
    List.find? (fun r => r.client == c && r.messageId == m)
        (l.map fun r => if r.client == c && r.messageId == m then f r else r) =
      Option.map f (l.find? fun r => r.client == c && r.messageId == m) := by
  induction l with
  | nil => rfl
  | cons r t ih =>
    simp only [List.map_cons, List.find?_cons]
    cases h : (r.client == c && r.messageId == m) with
    | true =>
      rw [if_pos (rfl : true = true), hc r, hm r, h]
      rfl
    | false =>
      rw [if_neg (by simp : ¬(false = true)), h]
      exact ih

/-- Reading back after `updateMessageSendResult` returns the stored record
marked completed with the given send result. -/
theorem readMessage_updateMessageSendResult (ds : DataStore) (c m : String) (r : SendResult) :
    DataStore.readMessage (DataStore.updateMessageSendResult ds c m r) c m =
      Option.map (fun rec => { rec with status := some Status.completed, sendResult := some r })
        (DataStore.readMessage ds c m) := by
  unfold DataStore.readMessage DataStore.updateMessageSendResult
  exact find?_keyed_map ds.recs c m _ (fun rec => rfl) (fun rec => rfl)

/-- Reading back after `deleteMessageEmail` returns the stored record with
its email body cleared. -/
theorem readMessage_deleteMessageEmail (ds : DataStore) (c m : String) :
    DataStore.readMessage (DataStore.deleteMessageEmail ds c m) c m =
      Option.map (fun rec => { rec with email := none })
        (DataStore.readMessage ds c m) := by
  unfold DataStore.readMessage DataStore.deleteMessageEmail
  exact find?_keyed_map ds.recs c m _ (fun rec => rfl) (fun rec => rfl)

/-- Looking up a job after removing its id from the queue finds nothing. -/
theorem getJob_removeById (q : Queue) (i : String) :
    Queue.getJob (Queue.removeById q i) i = none := by
  unfold Queue.getJob Queue.removeById
  simp only [List.find?_eq_none, List.mem_filter]
  intro j hj
  simpa using hj.2

/-- C1: when removeJob finds a job whose data carries both a client and a
messageId, the checks run in a fixed order: a messageId that differs from
the job id signals DataIntegrityError regardless of ownership and state;
with a consistent messageId, a foreign client signals ClientMismatchError
regardless of state; with matching ids and owner, a non-delayed state
signals UncancellableError. -/
theorem removeJob_check_order (w : World) (client jobId : String) (job : Job) (d : JobData)
    (hj : Queue.getJob w.queue jobId = some job)
    (hd : job.data = some d)
    (hc : truthy d.client = true) (hm : truthy d.messageId = true) :
    (d.messageId ≠ some jobId →
      (QueueService.removeJob w client jobId).1 = Except.error RemoveError.dataIntegrity)
    ∧ (d.messageId = some jobId → d.client ≠ some client →
      (QueueService.removeJob w client jobId).1 = Except.error RemoveError.clientMismatch)
    ∧ (d.messageId = some jobId → d.client = some client → job.state ≠ JobState.delayed →
      (QueueService.removeJob w client jobId).1 = Except.error RemoveError.uncancellable) := by
  refine ⟨fun h1 => ?_, fun h1 h2 => ?_, fun h1 h2 h3 => ?_⟩
  · simp [QueueService.removeJob, hj, hd, hc, hm, h1]
  · have hmj : truthy (some jobId) = true := h1 ▸ hm
    simp [QueueService.removeJob, hj, hd, hc, hmj, h1, h2]
  · have hmj : truthy (some jobId) = true := h1 ▸ hm
    have hcj : truthy (some client) = true := h2 ▸ hc
    simp [QueueService.removeJob, hj, hd, hcj, hmj, h1, h2, h3]

/-- C1 witness: on a world holding a corrupted delayed job (id m1,
recorded messageId m2), removeJob signals DataIntegrityError. -/
theorem removeJob_check_order_witness :
    (QueueService.removeJob wCorrupt "acme" "m1").1 = Except.error RemoveError.dataIntegrity :=
  (removeJob_check_order wCorrupt "acme" "m1" jobCorrupt
      { client := some "acme", messageId := some "m2" }
      (by rfl) (by rfl) (by decide) (by decide)).1 (by decide)

/-- C2: whenever removeJob signals one of the three typed errors, the
whole world is unchanged: the job is still queued, no data-store write and
no pending task was produced. -/
theorem removeJob_error_leaves_state (w : World) (client jobId : String) (e : RemoveError)
    (h : (QueueService.removeJob w client jobId).1 = Except.error e) :
    (QueueService.removeJob w client jobId).2 = w := by
  unfold QueueService.removeJob at h ⊢
  cases hj : Queue.getJob w.queue jobId with
  | none => simp [hj] at h
  | some job =>
    cases hd : job.data with
    | none => simp [hj, hd] at h
    | some d =>
      cases hbc : truthy d.client with
      | false => simp [hj, hd, hbc] at h
      | true =>
        cases hbm : truthy d.messageId with
        | false => simp [hj, hd, hbc, hbm] at h
        | true =>
          by_cases h1 : d.messageId = some jobId
          · have hmj : truthy (some jobId) = true := h1 ▸ hbm
            by_cases h2 : d.client = some client
            · have hcj : truthy (some client) = true := h2 ▸ hbc
              by_cases h3 : job.state = JobState.delayed
              · simp [hj, hd, hcj, hmj, h1, h2, h3] at h
              · simp [hj, hd, hcj, hmj, h1, h2, h3]
            · simp [hj, hd, hbc, hmj, h1, h2]
          · simp [hj, hd, hbc, hbm, h1]

/-- C2 witness: the DataIntegrityError signalled on the corrupted world
leaves that world unchanged. -/
theorem removeJob_error_leaves_state_witness :
    (QueueService.removeJob wCorrupt "acme" "m1").2 = wCorrupt :=
  removeJob_error_leaves_state wCorrupt "acme" "m1" RemoveError.dataIntegrity (by rfl)

/-- C3: when the job exists, is structurally consistent, is owned by the
caller and is delayed, removeJob answers true, the job is gone from the
queue, the data store is untouched at return time, and the REMOVED status
write and the content scrub are merely initiated as pending tasks. -/
theorem removeJob_success_fire_and_forget (w : World) (client jobId : String) (job : Job) (d : JobData)
    (hj : Queue.getJob w.queue jobId = some job)
    (hd : job.data = some d)
    (hm : d.messageId = some jobId) (hc : d.client = some client)
    (hid : jobId ≠ "") (hcl : client ≠ "")
    (hs : job.state = JobState.delayed) :
    (QueueService.removeJob w client jobId).1 = Except.ok true
    ∧ Queue.getJob (QueueService.removeJob w client jobId).2.queue jobId = none
    ∧ (QueueService.removeJob w client jobId).2.store = w.store
    ∧ (QueueService.removeJob w client jobId).2.pending =
        w.pending ++ [PendingTask.updStatus client jobId Status.removed,
                      PendingTask.updContent job] := by
  have hcj : truthy (some client) = true := by simp [truthy, hcl]
  have hmj : truthy (some jobId) = true := by simp [truthy, hid]
  refine ⟨?_, ?_, ?_, ?_⟩ <;>
    simp [QueueService.removeJob, hj, hd, hm, hc, hcj, hmj, hs, getJob_removeById]

/-- C3 witness: removing the well-formed delayed job m1 as its owner acme
succeeds, removes it from the queue and only schedules the two writes. -/
theorem removeJob_success_fire_and_forget_witness :
    (QueueService.removeJob wGood "acme" "m1").1 = Except.ok true
    ∧ Queue.getJob (QueueService.removeJob wGood "acme" "m1").2.queue "m1" = none
    ∧ (QueueService.removeJob wGood "acme" "m1").2.store = wGood.store
    ∧ (QueueService.removeJob wGood "acme" "m1").2.pending =
        wGood.pending ++ [PendingTask.updStatus "acme" "m1" Status.removed,
                          PendingTask.updContent jobGood] :=
  removeJob_success_fire_and_forget wGood "acme" "m1" jobGood
    { client := some "acme", messageId := some "m1" }
    (by rfl) (by rfl) (by rfl) (by rfl) (by decide) (by decide) (by rfl)

/-- C8: when the queue lookup finds no job for the id, removeJob returns
false, signals no error and changes nothing. -/
theorem removeJob_absent_returns_false (w : World) (client jobId : String)
    (h : Queue.getJob w.queue jobId = none) :
    QueueService.removeJob w client jobId = (Except.ok false, w) := by
  simp [QueueService.removeJob, h]

/-- C8 witness: removing m1 from the empty queue answers false without an
error. -/
theorem removeJob_absent_returns_false_witness :
    QueueService.removeJob wEmpty "acme" "m1" = (Except.ok false, wEmpty) :=
  removeJob_absent_returns_false wEmpty "acme" "m1" (by rfl)

/-- C10: when the queue returns a job whose data is missing, or whose
client or messageId field is absent or empty, removeJob answers false like
for a missing job, with no error, no removal and no write. -/
theorem removeJob_malformed_returns_false (w : World) (client jobId : String) (job : Job)
    (hj : Queue.getJob w.queue jobId = some job)
    (hmal : job.data = none ∨
      ∃ d, job.data = some d ∧ (truthy d.client = false ∨ truthy d.messageId = false)) :
    QueueService.removeJob w client jobId = (Except.ok false, w) := by
  rcases hmal with hd | ⟨d, hd, hf⟩
  · simp [QueueService.removeJob, hj, hd]
  · have hb : (truthy d.client && truthy d.messageId) = false := by
      rcases hf with hf | hf <;> simp [hf]
    simp [QueueService.removeJob, hj, hd, hb]

/-- C10 witness: a queued job without any data payload makes removeJob
answer false and leave the world unchanged. -/
theorem removeJob_malformed_returns_false_witness :
    QueueService.removeJob wNoData "acme" "m1" = (Except.ok false, wNoData) :=
  removeJob_malformed_returns_false wNoData "acme" "m1" jobNoData (by rfl) (Or.inl (by rfl))

/-- C5: when the status write succeeds and the queue accepts the job,
enqueue first completes the ENQUEUED write and only then submits the job,
and the submitted job carries `message.messageId` as its id for every
options map, a caller-supplied jobId key included. -/
theorem enqueue_write_before_publish (env : Env) (w : World) (client : String)
    (m : MsgRecord) (opts : Opts)
    (h1 : env.updateStatusFails = false) (h2 : env.queueAddFails = false) :
    QueueService.enqueue env w client m opts =
      Except.ok
        { w with
          store := DataStore.updateStatus w.store client m.messageId Status.enqueued none
          queue := ⟨w.queue.jobs ++
            [{ id := m.messageId
               data := some { client := some client, messageId := some m.messageId }
               state := if opts.delay.isSome then JobState.delayed else JobState.waiting }]⟩
          events := w.events ++
            [Event.dsUpdateStatus client m.messageId Status.enqueued none,
             Event.queueAdd m.messageId { client := some client, messageId := some m.messageId },
             Event.logInfo "enqueue" "job enqueued"] } := by
  simp [QueueService.enqueue, h1, h2, Queue.add]

/-- C5 witness: enqueuing recAcme with an options map that carries its own
jobId key still submits the job under id m1, after the ENQUEUED write. -/
theorem enqueue_write_before_publish_witness :
    QueueService.enqueue envOk wEmpty "acme" recAcme
        { jobId := some "evil", delay := some 600000 } =
      Except.ok
        { wEmpty with
          store := DataStore.updateStatus wEmpty.store "acme" "m1" Status.enqueued none
          queue := ⟨wEmpty.queue.jobs ++
            [{ id := "m1"
               data := some { client := some "acme", messageId := some "m1" }
               state := JobState.delayed }]⟩
          events := wEmpty.events ++
            [Event.dsUpdateStatus "acme" "m1" Status.enqueued none,
             Event.queueAdd "m1" { client := some "acme", messageId := some "m1" },
             Event.logInfo "enqueue" "job enqueued"] } := by
  have h := enqueue_write_before_publish envOk wEmpty "acme" recAcme
      { jobId := some "evil", delay := some 600000 } (by rfl) (by rfl)
  simpa using h

/-- C9: when the queue add call rejects, enqueue still returns normally,
only logs the failure, submits no job, and the already-written ENQUEUED
status stays in the data store. -/
theorem enqueue_add_failure_logged (env : Env) (w : World) (client : String)
    (m : MsgRecord) (opts : Opts)
    (h1 : env.updateStatusFails = false) (h2 : env.queueAddFails = true) :
    QueueService.enqueue env w client m opts =
      Except.ok
        { w with
          store := DataStore.updateStatus w.store client m.messageId Status.enqueued none
          events := w.events ++
            [Event.dsUpdateStatus client m.messageId Status.enqueued none,
             Event.logError "enqueue" "queue add rejected"] } := by
  simp [QueueService.enqueue, h1, h2]

/-- C9 witness: with a rejecting queue, enqueuing recAcme returns ok,
leaves the queue empty and keeps the ENQUEUED write. -/
theorem enqueue_add_failure_logged_witness :
    QueueService.enqueue envAddFail wEmpty "acme" recAcme { jobId := none, delay := none } =
      Except.ok
        { wEmpty with
          store := DataStore.updateStatus wEmpty.store "acme" "m1" Status.enqueued none
          events := wEmpty.events ++
            [Event.dsUpdateStatus "acme" "m1" Status.enqueued none,
             Event.logError "enqueue" "queue add rejected"] } := by
  have h := enqueue_add_failure_logged envAddFail wEmpty "acme" recAcme
      { jobId := none, delay := none } (by rfl) (by rfl)
  simpa using h

/-- C4: when the data-store read and the mail transport both succeed for a
job carrying client and messageId, sendMessage persists the completed
status together with a send result whose smtpMsgId and response are
exactly the transport's returned messageId and response. -/
theorem sendMessage_success_completes (env : Env) (w : World) (job : Job) (d : JobData)
    (c mid : String) (msg : MsgRecord) (smtp : SmtpResult)
    (hd : job.data = some d)
    (hc : d.client = some c) (hm : d.messageId = some mid)
    (hc0 : c ≠ "") (hm0 : mid ≠ "")
    (hr : env.readMessageFails = false)
    (hmsg : DataStore.readMessage w.store c mid = some msg)
    (hs : env.sendEmail msg.email = Except.ok smtp)
    (hu : env.updateSendResultFails = false) :
    DataStore.readMessage (QueueService.sendMessage env w job).store c mid =
      some { msg with
             status := some Status.completed
             sendResult := some { smtpMsgId := smtp.messageId, response := smtp.response } } := by
  have hcj : truthy (some c) = true := by simp [truthy, hc0]
  have hmj : truthy (some mid) = true := by simp [truthy, hm0]
  simp [QueueService.sendMessage, hd, hc, hm, hcj, hmj, hr, hmsg, hs, hu,
        readMessage_updateMessageSendResult]

/-- C4 witness: sending jobGood in the all-success environment marks
recAcme completed with the transport values abc and 250 OK. -/
theorem sendMessage_success_completes_witness :
    DataStore.readMessage (QueueService.sendMessage envOk wGood jobGood).store "acme" "m1" =
      some { recAcme with
             status := some Status.completed
             sendResult := some { smtpMsgId := "abc", response := "250 OK" } } := by
  have h := sendMessage_success_completes envOk wGood jobGood
      { client := some "acme", messageId := some "m1" } "acme" "m1" recAcme
      { messageId := "abc", response := "250 OK" }
      (by rfl) (by rfl) (by rfl) (by decide) (by decide) (by rfl) (by rfl) (by rfl) (by rfl)
  simpa using h

/-- C6: for a job carrying client and messageId, an error of the
data-store read, of the mail transport, or of the send-result write is
absorbed by sendMessage: it returns normally with the data store exactly
as before and an error log line as the only new effect. -/
theorem sendMessage_error_swallowed (env : Env) (w : World) (job : Job) (d : JobData)
    (hd : job.data = some d)
    (hcb : truthy d.client = true) (hmb : truthy d.messageId = true)
    (hfail : env.readMessageFails = true
      ∨ DataStore.readMessage w.store (d.client.getD "") (d.messageId.getD "") = none
      ∨ (∃ msg e, DataStore.readMessage w.store (d.client.getD "") (d.messageId.getD "") = some msg
            ∧ env.sendEmail msg.email = Except.error e)
      ∨ env.updateSendResultFails = true) :
    (QueueService.sendMessage env w job).store = w.store
    ∧ ∃ s, Event.logError "sendMessage" s ∈ (QueueService.sendMessage env w job).events := by
  cases hr : env.readMessageFails with
  | true =>
    exact ⟨by simp [QueueService.sendMessage, hd, hcb, hmb, hr],
      "readMessage rejected", by simp [QueueService.sendMessage, hd, hcb, hmb, hr]⟩
  | false =>
    cases hmsg : DataStore.readMessage w.store (d.client.getD "") (d.messageId.getD "") with
    | none =>
      exact ⟨by simp [QueueService.sendMessage, hd, hcb, hmb, hr, hmsg],
        "message not found", by simp [QueueService.sendMessage, hd, hcb, hmb, hr, hmsg]⟩
    | some msg =>
      cases hs : env.sendEmail msg.email with
      | error e =>
        exact ⟨by simp [QueueService.sendMessage, hd, hcb, hmb, hr, hmsg, hs],
          e, by simp [QueueService.sendMessage, hd, hcb, hmb, hr, hmsg, hs]⟩
      | ok smtp =>
        cases hu : env.updateSendResultFails with
        | true =>
          exact ⟨by simp [QueueService.sendMessage, hd, hcb, hmb, hr, hmsg, hs, hu],
            "updateMessageSendResult rejected",
            by simp [QueueService.sendMessage, hd, hcb, hmb, hr, hmsg, hs, hu]⟩
        | false =>
          exfalso
          rcases hfail with hx | hx | ⟨msg2, e2, hx, hy⟩ | hx
          · rw [hr] at hx; cases hx
          · rw [hmsg] at hx; cases hx
          · rw [hmsg] at hx
            injection hx with hx2
            subst hx2
            rw [hs] at hy; cases hy
          · rw [hu] at hx; cases hx

/-- C6 witness: with a rejecting mail transport, sending jobGood leaves
the store untouched and logs the transport error. -/
theorem sendMessage_error_swallowed_witness :
    (QueueService.sendMessage envSendFail wGood jobGood).store = wGood.store
    ∧ ∃ s, Event.logError "sendMessage" s ∈ (QueueService.sendMessage envSendFail wGood jobGood).events :=
  sendMessage_error_swallowed envSendFail wGood jobGood
    { client := some "acme", messageId := some "m1" }
    (by rfl) (by decide) (by decide)
    (Or.inr (Or.inr (Or.inl ⟨recAcme, "smtp down", by rfl, by rfl⟩)))

/-- C7: updateContent is idempotent and absorbs failures: with working
collaborators a second call on the result of a first call changes nothing,
a job with data ends the first call with its payload scrubbed, a job whose
data carries client and messageId gets its stored email deleted, and a
rejecting deletion only adds an error log line without a throw. -/
theorem updateContent_idempotent (env envF : Env) (w : World) (job : Job)
    (h1 : env.deleteEmailFails = false) (h2 : env.jobUpdateFails = false)
    (hF : envF.deleteEmailFails = true) :
    QueueService.updateContent env (QueueService.updateContent env w job).1
        (QueueService.updateContent env w job).2 =
      QueueService.updateContent env w job
    ∧ (∀ d, job.data = some d → ((QueueService.updateContent env w job).2).data = none)
    ∧ (∀ d, job.data = some d → truthy d.messageId = true → truthy d.client = true →
        ((QueueService.updateContent env w job).1).store =
          DataStore.deleteMessageEmail w.store (d.client.getD "") (d.messageId.getD ""))
    ∧ (∀ d, job.data = some d → truthy d.messageId = true → truthy d.client = true →
        QueueService.updateContent envF w job =
          ({ w with events := w.events ++
              [Event.logError "updateContent" "deleteMessageEmail rejected"] }, job)) := by
  cases hjd : job.data with
  | none =>
    refine ⟨by simp [QueueService.updateContent, hjd], ?_, ?_, ?_⟩
    · intro d hd; cases hd
    · intro d hd _ _; cases hd
    · intro d hd _ _; cases hd
  | some d0 =>
    cases hmb : truthy d0.messageId with
    | false =>
      refine ⟨by simp [QueueService.updateContent, hjd, hmb, h2], ?_, ?_, ?_⟩
      · intro d hd; injection hd with hd2; subst hd2
        simp [QueueService.updateContent, hjd, hmb, h2]
      · intro d hd hmt _; injection hd with hd2; subst hd2
        rw [hmb] at hmt; cases hmt
      · intro d hd hmt _; injection hd with hd2; subst hd2
        rw [hmb] at hmt; cases hmt
    | true =>
      cases hcb : truthy d0.client with
      | false =>
        refine ⟨by simp [QueueService.updateContent, hjd, hmb, hcb, h2], ?_, ?_, ?_⟩
        · intro d hd; injection hd with hd2; subst hd2
          simp [QueueService.updateContent, hjd, hmb, hcb, h2]
        · intro d hd _ hct; injection hd with hd2; subst hd2
          rw [hcb] at hct; cases hct
        · intro d hd _ hct; injection hd with hd2; subst hd2
          rw [hcb] at hct; cases hct
      | true =>
        refine ⟨by simp [QueueService.updateContent, hjd, hmb, hcb, h1, h2], ?_, ?_, ?_⟩
        · intro d hd; injection hd with hd2; subst hd2
          simp [QueueService.updateContent, hjd, hmb, hcb, h1, h2]
        · intro d hd _ _; injection hd with hd2; subst hd2
          simp [QueueService.updateContent, hjd, hmb, hcb, h1, h2]
        · intro d hd _ _; injection hd with hd2; subst hd2
          simp [QueueService.updateContent, hjd, hmb, hcb, hF]

/-- C7 witness: on jobGood a second updateContent call is a no-op and the
first call deletes the stored email of acme m1. -/
theorem updateContent_idempotent_witness :
    QueueService.updateContent envOk (QueueService.updateContent envOk wGood jobGood).1
        (QueueService.updateContent envOk wGood jobGood).2 =
      QueueService.updateContent envOk wGood jobGood
    ∧ ((QueueService.updateContent envOk wGood jobGood).1).store =
        DataStore.deleteMessageEmail wGood.store "acme" "m1" := by
  have h := updateContent_idempotent envOk envDelFail wGood jobGood (by rfl) (by rfl) (by rfl)
  refine ⟨h.1, ?_⟩
  have h3 := h.2.2.1 { client := some "acme", messageId := some "m1" } (by rfl) (by decide) (by decide)
  simpa using h3

end Ches
